import Mathlib

/-!
Verification of the strava-reporter event handler (src/events/handler.py).

The handler is sequential glue code: a subscription-validation echo, an
event-intake filter that forwards activity events to an async topic, an
event processor that resolves credentials (refreshing expired tokens),
fetches activity and athlete records, formats a chat message and posts or
edits it, and a delivery tracker mapping activity ids to chat message ids.

Modelling conventions:
* Machine floats are modelled as exact rationals; Python `round` (banker's
  rounding, half to even) is `pyRound`, `int()` truncation toward zero is
  `pyInt`.
* External collaborators (credential table, refresh endpoint, REST API,
  chat webhook, messages table) are modelled by an explicit environment
  `Env` supplying their responses; effects are returned as data
  (updated tables, a list of chat actions).
* Python exceptions (TypeError, ZeroDivisionError, KeyError) become
  `Except.error` values.
-/

namespace StravaReporter

/-- Python `round(x)`: round half to even (banker's rounding). -/
def bankersRound (x : ℚ) : ℤ :=
  let f := Int.floor x
  let frac := x - f
  if frac < 1/2 then f
  else if 1/2 < frac then f + 1
  else if 2 ∣ f then f else f + 1

/-- Python `round(x, n)`: round to `n` decimal places, half to even. -/
def pyRound (x : ℚ) (n : ℕ) : ℚ :=
  (bankersRound (x * (10:ℚ)^n) : ℚ) / (10:ℚ)^n

/-- Python `int(x)` on a float: truncation toward zero. -/
def pyInt (x : ℚ) : ℤ :=
  if 0 ≤ x then Int.floor x else -Int.floor (-x)

/-- The decimal digit `d` (0-9) as a character. -/
def digitChar (d : ℕ) : Char := Char.ofNat (48 + d)

/-- Fuel-driven digit expansion of a natural number (structural, so the
kernel can evaluate it). -/
def natToStrAux : ℕ → ℕ → List Char → List Char
  | 0, _, acc => acc
  | fuel + 1, n, acc =>
      if n = 0 then acc else natToStrAux fuel (n / 10) (digitChar (n % 10) :: acc)

/-- Decimal rendering of a natural number, as Python `str`. -/
def natToStr (n : ℕ) : String :=
  if n = 0 then "0" else String.mk (natToStrAux (n + 1) n [])

/-- Decimal rendering of an integer, as Python `str`. -/
def intToStr (i : ℤ) : String :=
  if i < 0 then "-" ++ natToStr (-i).toNat else natToStr i.toNat

/-- Python format spec `{:02d}` on a nonnegative value: pad to width 2
with leading zeros. -/
def natPad2 (n : ℕ) : String :=
  if n < 10 then "0" ++ natToStr n else natToStr n

/-- Left-pad a string with zeros to the given length. -/
def padZeros (s : String) (len : ℕ) : String :=
  String.mk (List.replicate (len - s.length) (digitChar 0)) ++ s

/-- String rendering of a nonnegative decimal given as `scaled / 10^maxDec`:
integer part, a dot, then the fractional digits with trailing zeros
stripped but at least one digit kept. -/
def decimalReprNat (scaled maxDec : ℕ) : String :=
  let ip := scaled / 10^maxDec
  let fp := scaled % 10^maxDec
  let s := padZeros (natToStr fp) maxDec
  let t := (s.data.reverse.dropWhile (fun c => c = digitChar 0)).reverse
  let fpStr := if t = [] then "0" else String.mk t
  natToStr ip ++ "." ++ fpStr

/-- Python `repr`/f-string rendering of a float whose value is an integer
multiple of `10 ^ (-maxDec)` (so `10` with `maxDec = 2` renders as
"10.0", matching `repr(10.0)`). -/
def decimalRepr (x : ℚ) (maxDec : ℕ) : String :=
  if x < 0 then "-" ++ decimalReprNat (Int.floor (-x * (10:ℚ)^maxDec)).toNat maxDec
  else decimalReprNat (Int.floor (x * (10:ℚ)^maxDec)).toNat maxDec

/-! ## HTTP-level data -/

/-- An HTTP response body: either a JSON object with string values
(`json.dumps` of a dict) or a plain text string. -/
inductive HttpBody
  | jsonObj (fields : List (String × String))
  | text (s : String)
  deriving DecidableEq

/-- A handler response, as the dict `(statusCode := ..., body := ...)`
returned to the HTTP layer. -/
structure HttpResponse where
  statusCode : ℕ
  body : HttpBody
  deriving DecidableEq

/-- Association-list lookup for query parameters (a Python dict access,
`none` meaning KeyError). -/
def lookupStr (l : List (String × String)) (k : String) : Option String :=
  match l.find? (fun p => p.1 == k) with
  | some p => some p.2
  | none => none

/-! ## Subscription Validator (`subscribe`) -/

/-- `subscribe` (handler.py lines 38-56): echo the `hub.challenge` query
parameter with status 200; on KeyError (no `queryStringParameters` key,
modelled by `none`, or no `hub.challenge` entry) respond 400
"Invalid request". The function is pure: it performs no side effects. -/
def subscribe (queryStringParameters : Option (List (String × String))) : HttpResponse :=
  match queryStringParameters with
  | none => { statusCode := 400, body := .text "Invalid request" }
  | some qs =>
    match lookupStr qs "hub.challenge" with
    | some challenge => { statusCode := 200, body := .jsonObj [("hub.challenge", challenge)] }
    | none => { statusCode := 400, body := .text "Invalid request" }

/-! ## Event Intake (`receive_event`) -/

/-- A parsed inbound event body: its `object_type` discriminator plus the
rest of the JSON object, carried opaquely. -/
structure RawBody where
  object_type : String
  rest : String
  deriving DecidableEq

/-- Outcome of the SNS publish call, supplied by the environment: either
success or a `ClientError` (the only exception the code catches). -/
inductive PublishOutcome
  | ok
  | clientError
  deriving DecidableEq

/-- `receive_event` (handler.py lines 59-83): if `object_type` is
"activity", publish the (re-serialised) body to the activity topic —
a `ClientError` from the publish is caught and logged only; any other
object type does nothing.  Always returns 200 "Success".  The second
component lists the publish calls made (each carrying the body). -/
def receive_event (body : RawBody) (pub : PublishOutcome) : HttpResponse × List RawBody :=
  if body.object_type = "activity" then
    match pub with
    | .ok => ({ statusCode := 200, body := .text "Success" }, [body])
    | .clientError => ({ statusCode := 200, body := .text "Success" }, [body])
  else
    ({ statusCode := 200, body := .text "Success" }, [])

/-! ## Credential Resolver (`get_token_for_athlete`) -/

/-- A stored `AthleteCredential` (one row of the users table). Times are
epoch values; rationals model the resolution of `datetime`. -/
structure Credential where
  access_token : String
  refresh_token : String
  expires_at : ℚ
  deriving DecidableEq

/-- What the token-refresh endpoint would answer if called, supplied by
the environment. On a 200 status the token triple is the payload. -/
structure RefreshResponse where
  status_code : ℕ
  access_token : String
  refresh_token : String
  expires_at : ℚ
  deriving DecidableEq

/-- The value `get_token_for_athlete` hands back: either an access token
(string) or the explicit refresh-failure response dict built on a
non-200 refresh status. -/
inductive TokenResult
  | token (t : String)
  | errorResponse (statusCode : ℕ) (body : String)
  deriving DecidableEq

/-- Result of resolving a credential: the returned value, the stored
credential after the call, and whether the refresh endpoint was called. -/
structure TokenOutcome where
  result : TokenResult
  cred : Credential
  refreshCalled : Bool
  deriving DecidableEq

/-- `get_token_for_athlete` (handler.py lines 107-151): the token is
expired iff `expires_at < now` (strict, from
`datetime.fromtimestamp(expires_at) < datetime.now()`). If expired, call
the refresh endpoint; on a non-200 status return the error-response dict
(statusCode passthrough, fixed message) leaving storage unchanged; on
success overwrite the stored triple and return the new access token. If
not expired, return the stored access token, storage unchanged. -/
def get_token_for_athlete (cred : Credential) (now : ℚ) (resp : RefreshResponse) : TokenOutcome :=
  let expired := cred.expires_at < now
  if expired then
    if resp.status_code ≠ 200 then
      { result := .errorResponse resp.status_code "Failed to get updated token for athlete",
        cred := cred,
        refreshCalled := true }
    else
      { result := .token resp.access_token,
        cred := { access_token := resp.access_token,
                  refresh_token := resp.refresh_token,
                  expires_at := resp.expires_at },
        refreshCalled := true }
  else
    { result := .token cred.access_token, cred := cred, refreshCalled := false }

/-! ## Message formatting (`build_webhook_message`) -/

/-- The activity record returned by `GET /activities/(id)`. -/
structure Activity where
  name : String
  id : ℕ
  distance : ℚ
  moving_time : ℕ
  average_speed : ℚ
  total_elevation_gain : ℚ
  type : String
  start_date : String
  deriving DecidableEq

/-- The athlete record returned by `GET /athlete`. -/
structure Athlete where
  firstname : String
  lastname : String
  id : ℕ
  profile_medium : String
  deriving DecidableEq

/-- One embed field (name, value, inline flag). -/
structure EmbedField where
  name : String
  value : String
  inlined : Bool
  deriving DecidableEq

/-- The discord embed built for an activity. -/
structure Embed where
  title : String
  url : String
  colour : ℕ
  timestamp : String
  authorName : String
  authorUrl : String
  authorIcon : String
  footerText : String
  footerIcon : String
  fields : List EmbedField
  deriving DecidableEq

/-- The `activity_colours` dict (handler.py lines 22-32). -/
def activity_colours : List (String × ℕ) :=
  [("Run", 0xFC4C02), ("Ride", 0x66C2FF), ("Hike", 0x008000),
   ("RockClimbing", 0xFF8000), ("AlpineSki", 0xFEFEFE),
   ("BackcountrySki", 0xFEFEFE), ("NordicSki", 0xFEFEFE),
   ("Snowboard", 0xFEFEFE), ("default", 0xFC4C02)]

/-- `activity_colours.get(t, activity_colours["default"])`. -/
def colour_for (t : String) : ℕ :=
  match activity_colours.find? (fun p => p.1 == t) with
  | some p => p.2
  | none => 0xFC4C02

/-- Activity types using average speed instead of pace (line 35). -/
def use_speed : List String := ["Ride"]

/-- Displayed distance: `round(activity["distance"] / 1000, 2)` (line 186). -/
def displayed_distance_km (distance : ℚ) : ℚ :=
  pyRound (distance / 1000) 2

/-- Displayed moving time (lines 188-196): `H:MM:SS` when the hour part
is nonzero (Python truthiness of `hours`), else `M:SS`. -/
def format_moving_time (moving_time : ℕ) : String :=
  let hours := moving_time / 3600
  let rem := moving_time % 3600
  let minutes := rem / 60
  let seconds := rem % 60
  if hours ≠ 0 then
    natToStr hours ++ ":" ++ natPad2 minutes ++ ":" ++ natPad2 seconds
  else
    natToStr minutes ++ ":" ++ natPad2 seconds

/-- Displayed pace (lines 198-203). `none` models the Python
`ZeroDivisionError` raised by `raw_pace = activity_minutes /
activity_distance_km` when the rounded distance is zero. Otherwise:
`divmod(raw_pace, 1)` splits off the floor, the fractional part is
multiplied by 0.6 and rounded to 2 decimals, and the seconds field is
`int(pace_seconds * 100)` formatted `{:02d}`. -/
def activity_pace (moving_time : ℕ) (distance_km : ℚ) : Option String :=
  if distance_km = 0 then none
  else
    let activity_minutes : ℚ := (moving_time : ℚ) / 60
    let raw_pace := activity_minutes / distance_km
    let pace_minutes : ℤ := Int.floor raw_pace
    let pace_seconds : ℚ := raw_pace - pace_minutes
    let pace_seconds2 := pyRound (pace_seconds * (6/10)) 2
    some (intToStr (pyInt (pace_minutes : ℚ)) ++ ":" ++ natPad2 (pyInt (pace_seconds2 * 100)).toNat)

/-- Displayed average speed: `round(activity["average_speed"] * 3.6, 1)`
(line 204). -/
def displayed_speed_kmh (average_speed : ℚ) : ℚ :=
  pyRound (average_speed * (36/10)) 1

/-- `build_webhook_message` (handler.py lines 174-239), with the two REST
fetches supplied as the already-decoded `activity` and `athlete` records.
Fails (ZeroDivisionError) when the rounded distance is zero, since the
pace is computed before the speed-vs-pace branch. -/
def build_webhook_message (activity : Activity) (athlete : Athlete) : Except String Embed :=
  match activity_pace activity.moving_time (displayed_distance_km activity.distance) with
  | none => .error "ZeroDivisionError: float division by zero"
  | some pace =>
    .ok { title := activity.name,
          url := "https://strava.com/activities/" ++ natToStr activity.id,
          colour := colour_for activity.type,
          timestamp := activity.start_date,
          authorName := athlete.firstname ++ " " ++ athlete.lastname,
          authorUrl := "https://strava.com/athletes/" ++ natToStr athlete.id,
          authorIcon := athlete.profile_medium,
          footerText := "Powered by Strava",
          footerIcon := "https://d3nn82uaxijpm6.cloudfront.net/apple-touch-icon-144x144.png?v=dLlWydWlG8",
          fields :=
            [ { name := "Distance",
                value := decimalRepr (displayed_distance_km activity.distance) 2 ++ " km",
                inlined := true },
              { name := "Moving Time", value := format_moving_time activity.moving_time, inlined := true },
              if use_speed.contains activity.type then
                { name := "Average Speed",
                  value := decimalRepr (displayed_speed_kmh activity.average_speed) 1 ++ " km/h",
                  inlined := true }
              else
                { name := "Pace", value := pace ++ " /km", inlined := true },
              { name := "Elevation", value := decimalRepr activity.total_elevation_gain 6 ++ " m", inlined := true } ] }

/-! ## Delivery tracker and chat dispatch -/

/-- The messages table: activity id to chat message id. -/
def MessagesTable := List (ℕ × ℕ)

/-- Point read of the messages table (`get_item`). -/
def lookup_message (table : List (ℕ × ℕ)) (activity_id : ℕ) : Option ℕ :=
  match table.find? (fun p => p.1 == activity_id) with
  | some p => some p.2
  | none => none

/-- Point write of the messages table (`put_item` overwrites the key). -/
def put_message (table : List (ℕ × ℕ)) (activity_id message_id : ℕ) : List (ℕ × ℕ) :=
  match table.find? (fun p => p.1 == activity_id) with
  | some _ => table.map (fun p => if p.1 == activity_id then (activity_id, message_id) else p)
  | none => table ++ [(activity_id, message_id)]

/-- A call made to the chat destination. -/
inductive ChatAction
  | send (embed : Embed)
  | edit (message_id : ℕ) (embed : Embed)
  deriving DecidableEq

/-- `post_webhook` (handler.py lines 242-258): send the embed as a new
chat message (the destination assigns `new_message_id`), then store
`(activity_id, message_id)` in the messages table. -/
def post_webhook (activity_id : ℕ) (embed : Embed) (table : List (ℕ × ℕ))
    (new_message_id : ℕ) : List (ℕ × ℕ) × List ChatAction :=
  (put_message table activity_id new_message_id, [.send embed])

/-- `update_or_repost_webhook` (handler.py lines 261-275): look up the
DeliveryRecord; if a truthy `message_id` is found (Python `if message_id
:= ...` — a stored id of 0 is falsy), edit that message in place, table
unchanged. Otherwise the code calls `post_webhook(embed)` with a single
argument, which raises `TypeError` (the function needs `activity_id` and
`embed`), so nothing is posted and nothing is written. -/
def update_or_repost_webhook (activity_id : ℕ) (embed : Embed) (table : List (ℕ × ℕ)) :
    Except String (List (ℕ × ℕ) × List ChatAction) :=
  match lookup_message table activity_id with
  | some message_id =>
      if message_id ≠ 0 then .ok (table, [.edit message_id embed])
      else .error "TypeError: post_webhook() missing 1 required positional argument"
  | none => .error "TypeError: post_webhook() missing 1 required positional argument"

/-! ## Event Processor (`post_message`) -/

/-- A parsed event payload (the fields `post_message` reads). -/
structure EventBody where
  object_type : String
  object_id : ℕ
  aspect_type : String
  owner_id : ℕ
  deriving DecidableEq

/-- The external world as seen by one `post_message` invocation: the
stored credential for the owner, the clock, the refresh endpoint's
answer, the two REST fetch results, the messages table, and the message
id the chat destination would assign to a new post. -/
structure Env where
  now : ℚ
  cred : Credential
  refreshResp : RefreshResponse
  activity : Activity
  athlete : Athlete
  messages : List (ℕ × ℕ)
  newMessageId : ℕ
  deriving DecidableEq

/-- Observable outcome of one `post_message` invocation: the returned
status (200, or a propagated exception), the stored credential and
messages table afterwards, the chat calls made, whether the refresh
endpoint was called, and whether the activity/athlete REST fetch
happened. -/
structure ProcessResult where
  status : Except String ℕ
  cred : Credential
  messages : List (ℕ × ℕ)
  chat : List ChatAction
  refreshCalled : Bool
  fetchedActivity : Bool

/-- `post_message` (handler.py lines 154-171): resolve the owner's token
first (line 158) — unconditionally, before any branching, and without
inspecting the result, which is passed on as the bearer token even when
it is the refresh-failure dict. Then branch on object/aspect type:
activity+create builds and posts, activity+update builds and
posts-or-edits, everything else does nothing. Exceptions propagate as
`.error`. -/
def post_message (body : EventBody) (env : Env) : ProcessResult :=
  let tok := get_token_for_athlete env.cred env.now env.refreshResp
  if body.object_type = "activity" then
    if body.aspect_type = "create" then
      match build_webhook_message env.activity env.athlete with
      | .error e =>
          { status := .error e, cred := tok.cred, messages := env.messages, chat := [],
            refreshCalled := tok.refreshCalled, fetchedActivity := true }
      | .ok embed =>
          let r := post_webhook body.object_id embed env.messages env.newMessageId
          { status := .ok 200, cred := tok.cred, messages := r.1, chat := r.2,
            refreshCalled := tok.refreshCalled, fetchedActivity := true }
    else if body.aspect_type = "update" then
      match build_webhook_message env.activity env.athlete with
      | .error e =>
          { status := .error e, cred := tok.cred, messages := env.messages, chat := [],
            refreshCalled := tok.refreshCalled, fetchedActivity := true }
      | .ok embed =>
          match update_or_repost_webhook body.object_id embed env.messages with
          | .error e =>
              { status := .error e, cred := tok.cred, messages := env.messages, chat := [],
                refreshCalled := tok.refreshCalled, fetchedActivity := true }
          | .ok r =>
              { status := .ok 200, cred := tok.cred, messages := r.1, chat := r.2,
                refreshCalled := tok.refreshCalled, fetchedActivity := true }
    else
      { status := .ok 200, cred := tok.cred, messages := env.messages, chat := [],
        refreshCalled := tok.refreshCalled, fetchedActivity := false }
  else
    { status := .ok 200, cred := tok.cred, messages := env.messages, chat := [],
      refreshCalled := tok.refreshCalled, fetchedActivity := false }

/-! ## Spec-side description of the pace rule (for the refinement claim) -/

/-- The pace rule exactly as the spec words it: raw pace is the
fractional minutes-per-km value; its integer part is the minutes figure;
the fractional part times 0.6, rounded to 2 decimals, then times 100 and
truncated to an integer, is the seconds field rendered as two digits. -/
def paceSpecDescription (moving_time : ℕ) (distance_km : ℚ) : String :=
  let rawPace : ℚ := ((moving_time : ℚ) / 60) / distance_km
  let minutes : ℤ := Int.floor rawPace
  let fractional : ℚ := rawPace - minutes
  let seconds : ℤ := pyInt (pyRound (fractional * (6/10)) 2 * 100)
  intToStr minutes ++ ":" ++ natPad2 seconds.toNat

/-! ## Concrete fixtures -/

/-- A 5 km, 1500 s run (the spec's pace vector). -/
def testActivity : Activity :=
  { name := "Morning Run", id := 42, distance := 5000, moving_time := 1500,
    average_speed := 3, total_elevation_gain := 10, type := "Run",
    start_date := "2024-01-01T00:00:00Z" }

/-- A 4 m activity: its displayed distance rounds to 0.0 km. -/
def tinyActivity : Activity :=
  { name := "Tiny", id := 43, distance := 4, moving_time := 600,
    average_speed := 1, total_elevation_gain := 0, type := "Run",
    start_date := "2024-01-01T00:00:00Z" }

/-- A concrete athlete record. -/
def testAthlete : Athlete :=
  { firstname := "Ada", lastname := "Lovelace", id := 7,
    profile_medium := "https://example.com/p.png" }

/-- A stored credential expiring at epoch 1000. -/
def testCred : Credential :=
  { access_token := "tokA", refresh_token := "tokR", expires_at := 1000 }

/-- A stored credential expiring at epoch 100 (boundary fixture). -/
def credAt100 : Credential :=
  { access_token := "oldA", refresh_token := "oldR", expires_at := 100 }

/-- A successful (200) refresh-endpoint answer. -/
def freshResp : RefreshResponse :=
  { status_code := 200, access_token := "newA", refresh_token := "newR", expires_at := 2000 }

/-- A failing (500) refresh-endpoint answer. -/
def failResp : RefreshResponse :=
  { status_code := 500, access_token := "x", refresh_token := "y", expires_at := 0 }

/-- Environment at time 500 (token valid) with an empty messages table. -/
def envNoRecord : Env :=
  { now := 500, cred := testCred, refreshResp := freshResp, activity := testActivity,
    athlete := testAthlete, messages := [], newMessageId := 99 }

/-- Environment with an existing DeliveryRecord (42 mapped to 77). -/
def envWithRecord : Env := { envNoRecord with messages := [(42, 77)] }

/-- Environment at time 5000 (token expired) with a failing refresh. -/
def envExpiredFail : Env := { envNoRecord with now := 5000, refreshResp := failResp }

/-- Environment at time 5000 (token expired) with a successful refresh. -/
def envExpiredOk : Env := { envNoRecord with now := 5000 }

/-- An ("activity","update") event for activity 42. -/
def updateEvent : EventBody :=
  { object_type := "activity", object_id := 42, aspect_type := "update", owner_id := 7 }

/-- An ("activity","create") event for activity 42. -/
def createEvent : EventBody :=
  { object_type := "activity", object_id := 42, aspect_type := "create", owner_id := 7 }

/-- An ("athlete","update") event. -/
def athleteEvent : EventBody :=
  { object_type := "athlete", object_id := 1, aspect_type := "update", owner_id := 7 }

/-! ## Evaluation helpers -/

/-- Evaluate `bankersRound` once the floor of the argument is known. -/
theorem bankersRound_eval (x : ℚ) (f : ℤ) (hf : Int.floor x = f) :
    bankersRound x =
      if x - f < 1/2 then f else if 1/2 < x - f then f + 1 else if 2 ∣ f then f else f + 1 := by
  unfold bankersRound
  rw [hf]

/-- `int()` of an exact integer value is that integer. -/
theorem pyInt_intCast (i : ℤ) : pyInt (i : ℚ) = i := by
  unfold pyInt
  by_cases h : 0 ≤ (i : ℚ)
  · rw [if_pos h, Int.floor_intCast]
  · rw [if_neg h, ← Int.cast_neg, Int.floor_intCast, neg_neg]

/-- Rounding zero gives zero. -/
theorem pyRound_zero (n : ℕ) : pyRound 0 n = 0 := by
  unfold pyRound
  rw [bankersRound_eval _ 0 (by norm_num)]
  norm_num

/-- Evaluate `decimalRepr` of a nonnegative value once the scaled floor
is known. -/
theorem decimalRepr_eval (x : ℚ) (n s : ℕ) (h0 : ¬ x < 0)
    (hs : Int.floor (x * (10:ℚ)^n) = (s : ℤ)) :
    decimalRepr x n = decimalReprNat s n := by
  unfold decimalRepr
  rw [if_neg h0, hs, Int.toNat_natCast]

/-- Displayed distance of the 5 km fixture. -/
theorem displayed_5000 : displayed_distance_km 5000 = 5 := by
  unfold displayed_distance_km pyRound
  rw [bankersRound_eval _ 500 (by rw [Int.floor_eq_iff] ; norm_num)]
  norm_num

/-- Displayed distance of the 4 m fixture rounds to zero. -/
theorem displayed_4 : displayed_distance_km 4 = 0 := by
  unfold displayed_distance_km pyRound
  rw [bankersRound_eval _ 0 (by rw [Int.floor_eq_iff] ; norm_num)]
  norm_num

/-- A nonzero rounded distance makes the pace computation succeed. -/
theorem activity_pace_eq_some (mt : ℕ) (d : ℚ) (h : d ≠ 0) :
    ∃ s, activity_pace mt d = some s := by
  unfold activity_pace
  rw [if_neg h]
  exact ⟨_, rfl⟩

/-- A nonzero rounded distance makes `build_webhook_message` succeed. -/
theorem build_ok_of_distance_ne_zero (a : Activity) (ath : Athlete)
    (h : displayed_distance_km a.distance ≠ 0) :
    ∃ e, build_webhook_message a ath = .ok e := by
  obtain ⟨s, hs⟩ := activity_pace_eq_some a.moving_time (displayed_distance_km a.distance) h
  unfold build_webhook_message
  rw [hs]
  exact ⟨_, rfl⟩

/-- Displayed distance of the 10 km vector. -/
theorem displayed_10000 : displayed_distance_km 10000 = 10 := by
  unfold displayed_distance_km pyRound
  rw [bankersRound_eval _ 1000 (by rw [Int.floor_eq_iff] ; norm_num)]
  norm_num

/-- Displayed average speed of the 3.0 m/s vector. -/
theorem displayed_speed_3 : displayed_speed_kmh 3 = 108/10 := by
  unfold displayed_speed_kmh pyRound
  rw [bankersRound_eval _ 108 (by rw [Int.floor_eq_iff] ; norm_num)]
  norm_num

/-! ## Claim theorems -/

/-- C7: the Subscription Validator echoes a present `hub.challenge`
query parameter as a 200 response whose body is exactly the JSON object
mapping "hub.challenge" to that value, and answers 400 with an error
body when the parameter (or the whole query-parameter dict) is absent;
`subscribe` is a pure function of the request, so no side effects
occur. -/
theorem C7_subscribe_challenge_echo (qs : List (String × String)) (c : String) :
    (lookupStr qs "hub.challenge" = some c →
      subscribe (some qs) = { statusCode := 200, body := .jsonObj [("hub.challenge", c)] })
    ∧ (lookupStr qs "hub.challenge" = none →
      subscribe (some qs) = { statusCode := 400, body := .text "Invalid request" })
    ∧ subscribe none = { statusCode := 400, body := .text "Invalid request" } := by
  refine ⟨fun h => ?_, fun h => ?_, rfl⟩ <;> simp [subscribe, h]

/-- Witness for C7 at concrete requests with and without the
challenge parameter. -/
theorem C7_subscribe_challenge_echo_witness :
    subscribe (some [("hub.challenge", "tok123")]) =
      { statusCode := 200, body := .jsonObj [("hub.challenge", "tok123")] }
    ∧ subscribe (some [("other", "v")]) =
      { statusCode := 400, body := .text "Invalid request" } :=
  ⟨(C7_subscribe_challenge_echo [("hub.challenge", "tok123")] "tok123").1 (by decide),
   (C7_subscribe_challenge_echo [("other", "v")] "").2.1 (by decide)⟩

/-- C6: for every parseable intake body, when `object_type` is
"activity" exactly one publish call occurs carrying the body, and the
response is 200 "Success" regardless of the publish outcome (a
`ClientError` is caught and logged only); for any other object type no
publish occurs and the response is still 200. -/
theorem C6_receive_event_filters (body : RawBody) (pub : PublishOutcome) :
    (receive_event body pub).1 = { statusCode := 200, body := .text "Success" }
    ∧ (receive_event body pub).2 = (if body.object_type = "activity" then [body] else []) := by
  unfold receive_event
  by_cases h : body.object_type = "activity" <;> cases pub <;> simp [h]

/-- C5: the spec's formatting vectors hold: 10000 m displays as
"10.0 km" (meters/1000 rounded to 2 decimals), 3725 s as "1:02:05" and
125 s as "2:05" (H:MM:SS when at least an hour, else M:SS), and
3.0 m/s as "10.8 km/h" (m/s times 3.6 rounded to 1 decimal), via the
formatting computations used by `build_webhook_message`. -/
theorem C5_formatting_vectors :
    decimalRepr (displayed_distance_km 10000) 2 ++ " km" = "10.0 km"
    ∧ format_moving_time 3725 = "1:02:05"
    ∧ format_moving_time 125 = "2:05"
    ∧ decimalRepr (displayed_speed_kmh 3) 1 ++ " km/h" = "10.8 km/h" := by
  refine ⟨?_, by decide, by decide, ?_⟩
  · rw [displayed_10000,
      decimalRepr_eval 10 2 1000 (by norm_num) (by rw [Int.floor_eq_iff] ; push_cast ; norm_num)]
    decide
  · rw [displayed_speed_3,
      decimalRepr_eval (108/10) 1 108 (by norm_num) (by rw [Int.floor_eq_iff] ; push_cast ; norm_num)]
    decide

/-- C3 counterexample: at `now = expires_at` (here both 100) the claim
demands a refresh call, but `get_token_for_athlete` tests
`expires_at < now` strictly, so no refresh occurs: the stored access
token is returned and the stored credential is untouched. -/
theorem C3_counterexample :
    credAt100.expires_at ≤ (100:ℚ)
    ∧ (get_token_for_athlete credAt100 100 freshResp).refreshCalled = false
    ∧ (get_token_for_athlete credAt100 100 freshResp).result = .token credAt100.access_token
    ∧ (get_token_for_athlete credAt100 100 freshResp).cred = credAt100 := by
  have h : ¬ credAt100.expires_at < (100:ℚ) := by norm_num [credAt100]
  refine ⟨by norm_num [credAt100], ?_, ?_, ?_⟩ <;> simp [get_token_for_athlete, h]

/-- C3 (amended): the Credential Resolver refreshes exactly when
`now > expires_at` (strictly past expiry): in that case it calls the
token-refresh endpoint and, on a 200 answer, overwrites the stored
access token, refresh token and expiry and returns the new access
token; when `now <= expires_at` no refresh call is made and the stored
access token is returned with the credential unchanged. -/
theorem C3_get_token_refresh_boundary (c : Credential) (now : ℚ) (resp : RefreshResponse) :
    ((get_token_for_athlete c now resp).refreshCalled = true ↔ c.expires_at < now)
    ∧ (c.expires_at < now → resp.status_code = 200 →
        (get_token_for_athlete c now resp).result = .token resp.access_token
        ∧ (get_token_for_athlete c now resp).cred =
            { access_token := resp.access_token, refresh_token := resp.refresh_token,
              expires_at := resp.expires_at })
    ∧ (¬ c.expires_at < now →
        (get_token_for_athlete c now resp).refreshCalled = false
        ∧ (get_token_for_athlete c now resp).result = .token c.access_token
        ∧ (get_token_for_athlete c now resp).cred = c) := by
  by_cases h : c.expires_at < now
  · by_cases h2 : resp.status_code = 200 <;> simp [get_token_for_athlete, h, h2]
  · simp [get_token_for_athlete, h]

/-- Witness for C3 (amended): an expired credential (expiry 1000, now
5000) is refreshed to the new triple; an unexpired one (now 500) is
returned unchanged with no refresh call. -/
theorem C3_get_token_refresh_boundary_witness :
    ((get_token_for_athlete testCred 5000 freshResp).result = .token "newA"
     ∧ (get_token_for_athlete testCred 5000 freshResp).cred =
         { access_token := "newA", refresh_token := "newR", expires_at := 2000 })
    ∧ ((get_token_for_athlete testCred 500 freshResp).refreshCalled = false
       ∧ (get_token_for_athlete testCred 500 freshResp).result = .token "tokA"
       ∧ (get_token_for_athlete testCred 500 freshResp).cred = testCred) :=
  ⟨(C3_get_token_refresh_boundary testCred 5000 freshResp).2.1
      (by norm_num [testCred]) rfl,
   (C3_get_token_refresh_boundary testCred 500 freshResp).2.2
      (by norm_num [testCred])⟩

/-- C9: a valid activity whose distance (4 m) rounds to a displayed
distance of 0.0 km makes `build_webhook_message` fail with a
ZeroDivisionError instead of producing a message — the pace is computed
before the speed-vs-pace branch — and in general the pace computation
fails exactly when the rounded distance is zero. -/
theorem C9_zero_distance_breaks_build :
    displayed_distance_km tinyActivity.distance = 0
    ∧ build_webhook_message tinyActivity testAthlete =
        .error "ZeroDivisionError: float division by zero"
    ∧ (∀ (mt : ℕ) (d : ℚ), activity_pace mt d = none ↔ d = 0) := by
  have h4 : displayed_distance_km tinyActivity.distance = 0 := displayed_4
  have hp : activity_pace tinyActivity.moving_time
      (displayed_distance_km tinyActivity.distance) = none := by
    rw [h4]
    simp [activity_pace]
  refine ⟨h4, ?_, ?_⟩
  · unfold build_webhook_message
    rw [hp]
  · intro mt d
    constructor
    · intro h
      by_contra hd
      obtain ⟨s, hs⟩ := activity_pace_eq_some mt d hd
      rw [hs] at h
      exact Option.noConfusion h
    · intro h
      simp [activity_pace, h]

/-- C1: on an ("activity","update") event whose activity id has no
DeliveryRecord, the fallback calls `post_webhook` with only the embed
argument, which raises TypeError: the invocation fails, no chat message
is posted, and no DeliveryRecord is written — not the claimed
create-path behaviour of posting a new message and storing a record. -/
theorem C1_update_fallback_type_error :
    (post_message updateEvent envNoRecord).status
      = .error "TypeError: post_webhook() missing 1 required positional argument"
    ∧ (post_message updateEvent envNoRecord).chat = []
    ∧ (post_message updateEvent envNoRecord).messages = [] := by
  have hd : displayed_distance_km testActivity.distance ≠ 0 := by
    rw [show displayed_distance_km testActivity.distance = 5 from displayed_5000]
    norm_num
  obtain ⟨e, he⟩ := build_ok_of_distance_ne_zero testActivity testAthlete hd
  refine ⟨?_, ?_, ?_⟩ <;>
    simp [post_message, updateEvent, envNoRecord, he, update_or_repost_webhook, lookup_message]

/-- C2: when the token refresh answers non-200, `get_token_for_athlete`
does return the explicit refresh-failure response (status passthrough
plus message) instead of raising — but `post_message` never inspects
that result: it proceeds to the activity/athlete fetch and posts the
message anyway, so formatting is not short-circuited as claimed. -/
theorem C2_refresh_failure_not_short_circuited :
    (get_token_for_athlete envExpiredFail.cred envExpiredFail.now envExpiredFail.refreshResp).result
      = .errorResponse 500 "Failed to get updated token for athlete"
    ∧ (post_message createEvent envExpiredFail).fetchedActivity = true
    ∧ (post_message createEvent envExpiredFail).chat ≠ [] := by
  have hx : testCred.expires_at < (5000:ℚ) := by norm_num [testCred]
  have hd : displayed_distance_km testActivity.distance ≠ 0 := by
    rw [show displayed_distance_km testActivity.distance = 5 from displayed_5000]
    norm_num
  obtain ⟨e, he⟩ := build_ok_of_distance_ne_zero testActivity testAthlete hd
  refine ⟨?_, ?_, ?_⟩
  · simp [envExpiredFail, envNoRecord, get_token_for_athlete, hx, failResp]
  · simp [post_message, createEvent, envExpiredFail, envNoRecord, he, post_webhook]
  · simp [post_message, createEvent, envExpiredFail, envNoRecord, he, post_webhook]

/-- C8: on an ("activity","update") event whose activity id has an
existing DeliveryRecord (a truthy stored message id), the processor
submits exactly one edit against the stored message id and the messages
table is left unchanged: no new record is created and the existing one
is not rewritten. -/
theorem C8_update_with_record_edits_in_place (body : EventBody) (env : Env) (mid : ℕ)
    (e : Embed)
    (hobj : body.object_type = "activity") (hasp : body.aspect_type = "update")
    (hmid : lookup_message env.messages body.object_id = some mid) (hmid0 : mid ≠ 0)
    (he : build_webhook_message env.activity env.athlete = .ok e) :
    (post_message body env).messages = env.messages
    ∧ (post_message body env).chat = [.edit mid e]
    ∧ (post_message body env).status = .ok 200 := by
  simp [post_message, hobj, hasp, he, update_or_repost_webhook, hmid, hmid0]

/-- Witness for C8: with the record (42, 77) stored, the update event
for activity 42 leaves the table unchanged and returns 200. -/
theorem C8_update_with_record_edits_in_place_witness :
    (post_message updateEvent envWithRecord).messages = envWithRecord.messages
    ∧ (post_message updateEvent envWithRecord).status = .ok 200 := by
  have hd : displayed_distance_km testActivity.distance ≠ 0 := by
    rw [show displayed_distance_km testActivity.distance = 5 from displayed_5000]
    norm_num
  obtain ⟨e, he⟩ := build_ok_of_distance_ne_zero testActivity testAthlete hd
  have h := C8_update_with_record_edits_in_place updateEvent
    envWithRecord 77 e rfl rfl (by decide) (by norm_num) he
  exact ⟨h.1, h.2.2⟩

/-- C10: an event that produces no message — any ("athlete", *) event,
or ("activity","delete") — still resolves the owner's credentials
first, so the stored credential afterwards is whatever
`get_token_for_athlete` leaves (possibly a refreshed triple), while
the messages table, the chat destination and the REST API are
untouched. -/
theorem C10_noop_event_touches_only_credentials (body : EventBody) (env : Env)
    (h : body.object_type = "athlete"
         ∨ (body.object_type = "activity" ∧ body.aspect_type = "delete")) :
    (post_message body env).messages = env.messages
    ∧ (post_message body env).chat = []
    ∧ (post_message body env).fetchedActivity = false
    ∧ (post_message body env).cred =
        (get_token_for_athlete env.cred env.now env.refreshResp).cred
    ∧ (post_message body env).refreshCalled =
        (get_token_for_athlete env.cred env.now env.refreshResp).refreshCalled := by
  rcases h with h | ⟨h1, h2⟩
  · have hne : ¬ body.object_type = "activity" := by
      rw [h]
      decide
    simp [post_message, hne]
  · simp [post_message, h1, h2]

/-- Witness for C10: an ("athlete", update) event with an expired
credential and a 200 refresh answer rewrites the stored credential
(access token becomes "newA") while the messages table and chat stay
untouched. -/
theorem C10_noop_event_touches_only_credentials_witness :
    (post_message athleteEvent envExpiredOk).chat = []
    ∧ (post_message athleteEvent envExpiredOk).messages = envExpiredOk.messages
    ∧ (post_message athleteEvent envExpiredOk).cred.access_token = "newA"
    ∧ envExpiredOk.cred.access_token = "tokA" := by
  have h := C10_noop_event_touches_only_credentials athleteEvent envExpiredOk (Or.inl rfl)
  refine ⟨h.2.1, h.1, ?_, rfl⟩
  rw [h.2.2.2.1]
  have hx : testCred.expires_at < (5000:ℚ) := by norm_num [testCred]
  simp [envExpiredOk, envNoRecord, get_token_for_athlete, hx, freshResp]

/-- Concrete pace evaluation: 1500 s over a displayed distance of 5 km
gives "5:00". -/
theorem activity_pace_1500_5 : activity_pace 1500 (5:ℚ) = some "5:00" := by
  have h5 : ((1500:ℕ):ℚ) / 60 / 5 = 5 := by
    push_cast
    norm_num
  have hfl : Int.floor ((5:ℚ)) = 5 := by
    rw [Int.floor_eq_iff]
    norm_num
  simp only [activity_pace]
  rw [if_neg (by norm_num : ¬ (5:ℚ) = 0), h5, hfl, pyInt_intCast]
  rw [show ((5:ℚ) - ((5:ℤ):ℚ)) * (6/10) = 0 by push_cast ; norm_num]
  rw [pyRound_zero, zero_mul]
  rw [show (0:ℚ) = ((0:ℤ):ℚ) by norm_num, pyInt_intCast]
  decide

/-- C4: for every activity whose displayed (rounded) distance is
positive, the pace string follows the spec's exact two-step rounding
(`paceSpecDescription`): the integer part of the fractional
minutes-per-km value is the minutes figure, and the fractional part
times 0.6, rounded to 2 decimals, then times 100 and truncated to an
integer, is the two-digit seconds field; in particular 5 km in 1500 s
yields pace "5:00". -/
theorem C4_pace_two_step_rounding :
    (∀ (mt : ℕ) (d : ℚ), 0 < displayed_distance_km d →
        activity_pace mt (displayed_distance_km d)
          = some (paceSpecDescription mt (displayed_distance_km d)))
    ∧ activity_pace 1500 (displayed_distance_km 5000) = some "5:00" := by
  constructor
  · intro mt d h
    have hne : displayed_distance_km d ≠ 0 := ne_of_gt h
    simp only [activity_pace, paceSpecDescription, pyInt_intCast, if_neg hne]
  · rw [displayed_5000]
    exact activity_pace_1500_5

/-- Witness for C4 at the spec's 5 km / 1500 s vector. -/
theorem C4_pace_two_step_rounding_witness :
    activity_pace 1500 (displayed_distance_km 5000)
      = some (paceSpecDescription 1500 (displayed_distance_km 5000)) :=
  C4_pace_two_step_rounding.1 1500 5000 (by rw [displayed_5000] ; norm_num)

end StravaReporter
